import Mathlib

/-!
Verification of the customer-health analytics pipeline.

Shallow embedding of the core of the repository:
* `src/src/utils/data_processor.py` — `CXDataProcessor.calculate_health_scores`
* `src/src/utils/cache_manager.py` — `CacheManager.get` / `set` / `_set_memory`
* `src/src/utils/load_data.py` — `DataLoader.load_all_data` and the tier loaders
* `src/src/utils/churn_model_simple.py` — `build_churn_predictions`

Numeric modelling convention: the source computes in IEEE float64 via
pandas/numpy; we model all numeric columns as exact rationals (`ℚ`).  Every
constant appearing in the source (weights such as 0.15, band edges such as
100.01) is exactly representable, and every comparison settled below is
settled with a margin far above float rounding error.
-/

namespace CXDash

/-! ## numpy primitives

`np.digitize(x, bins, right=False)` on an increasing `bins` array equals
`np.searchsorted(bins, x, side='right')`: the number of bin edges `≤ x`.
The source always puts `np.inf` as the last edge; a finite input is never
`≥ np.inf`, so we model the bins by their finite edges only.  `np.clip` and
`np.minimum` are `min`/`max`. -/

def npDigitize (bins : List ℚ) (x : ℚ) : ℕ :=
  (bins.filter (fun b => decide (b ≤ x))).length

def npClip (lo hi x : ℚ) : ℚ :=
  min hi (max lo x)

/-! ## calculate_health_scores (data_processor.py lines 260–363)

One row of the user-metrics table, restricted to the columns the health-score
computation reads.  `annual_revenue.max()` is a dataset-wide aggregate, so it
is passed separately (`maxRevenue`). -/

structure AccountMetrics where
  logins_30d : ℚ
  avg_session_30d : ℚ
  core_actions : ℚ        -- property_added_count + tenant_added_count + lease_signed_count
  unique_features : ℚ
  days_since_last_activity : ℚ
  annual_revenue : ℚ
  portfolio_size : ℚ
  plan_type : String
  nps_score : ℚ
  support_tickets_last_90d : ℚ
  trainings_attended : ℚ
  report_generated_count : ℚ
  active_days_30d : ℚ
  days_to_renewal : ℚ

def login_score (a : AccountMetrics) : ℚ :=
  min 100 (a.logins_30d / 20 * 100)

def session_score (a : AccountMetrics) : ℚ :=
  min 100 (a.avg_session_30d / 30 * 100)

def core_labels : List ℚ := [0, 25, 50, 75, 100]

def core_usage_score (coreActions : ℚ) : ℚ :=
  core_labels.getD (npDigitize [0, 1, 5, 10] coreActions) 0

def adoption_score (a : AccountMetrics) : ℚ :=
  min 100 (a.unique_features / 5 * 100)

def recency_labels : List ℚ := [100, 80, 60, 40, 20, 0]

def recency_score (daysSince : ℚ) : ℚ :=
  recency_labels.getD (npDigitize [7, 14, 30, 60, 90] daysSince) 0

def usage_component (a : AccountMetrics) : ℚ :=
  login_score a * 0.15 +
  session_score a * 0.10 +
  core_usage_score a.core_actions * 0.30 +
  adoption_score a * 0.25 +
  recency_score a.days_since_last_activity * 0.20

def arr_score (maxRevenue : ℚ) (a : AccountMetrics) : ℚ :=
  a.annual_revenue / (if maxRevenue > 0 then maxRevenue else 1) * 100

def portfolio_score (a : AccountMetrics) : ℚ :=
  min 100 (a.portfolio_size / 20 * 100)

def plan_score (a : AccountMetrics) : ℚ :=
  if a.plan_type = "premium" then 100
  else if a.plan_type = "pro" then 65
  else if a.plan_type = "starter" then 35
  else 0

def business_value_component (maxRevenue : ℚ) (a : AccountMetrics) : ℚ :=
  arr_score maxRevenue a * 0.40 +
  portfolio_score a * 0.30 +
  plan_score a * 0.30

def nps_normalized (a : AccountMetrics) : ℚ :=
  (a.nps_score + 100) / 2

def support_labels : List ℚ := [100, 80, 60, 40, 20, 0]

def support_health (tickets : ℚ) : ℚ :=
  support_labels.getD (npDigitize [0, 2, 5, 10, 20] tickets) 0

def sentiment_component (a : AccountMetrics) : ℚ :=
  nps_normalized a * 0.60 +
  support_health a.support_tickets_last_90d * 0.40

def training_score (a : AccountMetrics) : ℚ :=
  min 100 (a.trainings_attended / 3 * 100)

def reporting_score (a : AccountMetrics) : ℚ :=
  min 100 (a.report_generated_count / 10 * 100)

def consistency_score (a : AccountMetrics) : ℚ :=
  a.active_days_30d / 30 * 100

def engagement_component (a : AccountMetrics) : ℚ :=
  training_score a * 0.30 +
  reporting_score a * 0.30 +
  consistency_score a * 0.40

def health_score_raw (maxRevenue : ℚ) (a : AccountMetrics) : ℚ :=
  usage_component a * 0.40 +
  business_value_component maxRevenue a * 0.30 +
  sentiment_component a * 0.20 +
  engagement_component a * 0.10

/-- `df['health_score'].fillna(0).clip(0, 100)`: a NaN (modelled `none`)
blend result is replaced by 0, then the value is clipped to `[0, 100]`. -/
def fill_clip_health (raw : Option ℚ) : ℚ :=
  npClip 0 100 (raw.getD 0)

def health_score (maxRevenue : ℚ) (a : AccountMetrics) : ℚ :=
  fill_clip_health (some (health_score_raw maxRevenue a))

inductive HealthTier where
  | Red
  | Yellow
  | Green
  deriving DecidableEq, Repr

/-- `tier_labels[np.digitize(score, [60, 80, 100.01])]`.  Scores are clipped
to `[0, 100]` before this lookup, so the index is at most 2; the `.getD`
default is never reached on pipeline outputs. -/
def health_tier (score : ℚ) : HealthTier :=
  [HealthTier.Red, HealthTier.Yellow, HealthTier.Green].getD
    (npDigitize [60, 80, 100.01] score) HealthTier.Red

/-- `at_renewal_risk = (days_to_renewal <= 90) & (health_score < 60)`. -/
def at_renewal_risk (days_to_renewal hs : ℚ) : Bool :=
  decide (days_to_renewal ≤ 90) && decide (hs < 60)

/-! Scenario A of the spec (§8): top plan maps to the source's `'premium'`
key in the plan-score dictionary.  `days_to_renewal` is not fixed by the
scenario and is irrelevant to its asserted outputs. -/

def scenarioA : AccountMetrics where
  logins_30d := 20
  avg_session_30d := 30
  core_actions := 10
  unique_features := 5
  days_since_last_activity := 5
  annual_revenue := 12000
  portfolio_size := 20
  plan_type := "premium"
  nps_score := 100
  support_tickets_last_90d := 0
  trainings_attended := 3
  report_generated_count := 10
  active_days_30d := 30
  days_to_renewal := 365

end CXDash

namespace CXDash

/-! ## Claims C1–C5: the health-score computation -/

/-- C1, counterexample: at Scenario A the sentiment component is not 100
(0 support tickets land in the second `np.digitize` band, scoring 80, so the
component is 92) and hence the final health score is not 100 either. -/
theorem claim_C1_counterexample :
    sentiment_component scenarioA ≠ 100 ∧ health_score 12000 scenarioA ≠ 100 := by
  constructor
  · norm_num [sentiment_component, nps_normalized, support_health, support_labels,
      npDigitize, List.filter, scenarioA]
  · norm_num [health_score, fill_clip_health, npClip, health_score_raw, usage_component,
      login_score, session_score, core_usage_score, core_labels, adoption_score,
      recency_score, recency_labels, business_value_component, arr_score, portfolio_score,
      plan_score, sentiment_component, nps_normalized, support_health, support_labels,
      engagement_component, training_score, reporting_score, consistency_score,
      npDigitize, List.filter, scenarioA, min_def, max_def]

/-- C1 (amended): at Scenario A the usage, business-value and engagement
components are all 100, the sentiment component is 92 (not 100, because the
support-ticket band for 0 tickets scores 80), the final health score is
492/5 = 98.4 (not 100), and the tier is still healthy (Green). -/
theorem claim_C1 :
    usage_component scenarioA = 100 ∧
    business_value_component 12000 scenarioA = 100 ∧
    sentiment_component scenarioA = 92 ∧
    engagement_component scenarioA = 100 ∧
    health_score 12000 scenarioA = 492 / 5 ∧
    health_tier (health_score 12000 scenarioA) = HealthTier.Green := by
  have husage : usage_component scenarioA = 100 := by
    norm_num [usage_component, login_score, session_score, core_usage_score, core_labels,
      adoption_score, recency_score, recency_labels, npDigitize, List.filter, scenarioA]
  have hbus : business_value_component 12000 scenarioA = 100 := by
    norm_num [business_value_component, arr_score, portfolio_score, plan_score, scenarioA]
  have hsent : sentiment_component scenarioA = 92 := by
    norm_num [sentiment_component, nps_normalized, support_health, support_labels,
      npDigitize, List.filter, scenarioA]
  have heng : engagement_component scenarioA = 100 := by
    norm_num [engagement_component, training_score, reporting_score, consistency_score,
      scenarioA]
  have hhs : health_score 12000 scenarioA = 492 / 5 := by
    norm_num [health_score, fill_clip_health, npClip, health_score_raw,
      husage, hbus, hsent, heng, min_def, max_def]
  refine ⟨husage, hbus, hsent, heng, hhs, ?_⟩
  rw [hhs]
  norm_num [health_tier, npDigitize, List.filter]

/-- C2, counterexample: a health score of exactly 80 is assigned the Green
(healthy) tier, not the stable tier the claim asserts: the digitize boundary
at 80 is inclusive on the Green side. -/
theorem claim_C2_counterexample :
    health_tier 80 = HealthTier.Green ∧ HealthTier.Green ≠ HealthTier.Yellow := by
  refine ⟨?_, by decide⟩
  norm_num [health_tier, npDigitize, List.filter]

/-- C2 (amended): on the clipped score range `[0, 100]` the tiers partition
with boundaries 60 and 80 as: score < 60 → Red (at-risk),
60 ≤ score < 80 → Yellow (stable), and 80 ≤ score → Green (healthy).
Exactly 60 is stable, but exactly 80 is healthy. -/
theorem claim_C2 : ∀ s : ℚ, 0 ≤ s → s ≤ 100 →
    (health_tier s = HealthTier.Red ↔ s < 60) ∧
    (health_tier s = HealthTier.Yellow ↔ 60 ≤ s ∧ s < 80) ∧
    (health_tier s = HealthTier.Green ↔ 80 ≤ s) := by
  intro s _h0 h100
  have h1001 : ¬ (100.01 : ℚ) ≤ s := by
    intro h
    have : (100.01 : ℚ) ≤ 100 := le_trans h h100
    norm_num at this
  by_cases h60 : (60 : ℚ) ≤ s <;> by_cases h80 : (80 : ℚ) ≤ s <;>
    simp [health_tier, npDigitize, List.filter, h60, h80, h1001] <;> linarith

/-- C2 witness: the amended theorem applied at the concrete boundary 80. -/
theorem claim_C2_witness :
    health_tier 80 = HealthTier.Green ↔ (80 : ℚ) ≤ 80 :=
  (claim_C2 80 (by norm_num) (by norm_num)).2.2

/-- C3: every computed health score lies in `[0, 100]` (`fillna(0).clip(0,100)`),
and an unresolved/NaN blend result defaults to 0 and therefore to the Red
(at-risk) tier. -/
theorem claim_C3 :
    (∀ (m : ℚ) (a : AccountMetrics), 0 ≤ health_score m a ∧ health_score m a ≤ 100) ∧
    fill_clip_health none = 0 ∧
    health_tier (fill_clip_health none) = HealthTier.Red := by
  refine ⟨?_, ?_, ?_⟩
  · intro m a
    simp only [health_score, fill_clip_health, npClip, Option.getD_some]
    exact ⟨le_min (by norm_num) (le_max_left 0 _), min_le_left _ _⟩
  · norm_num [fill_clip_health, npClip]
  · norm_num [fill_clip_health, npClip, health_tier, npDigitize, List.filter]

/-- Band characterization of the core-usage score over nonnegative inputs. -/
theorem core_usage_score_cases (x : ℚ) (h0 : 0 ≤ x) :
    core_usage_score x = if 10 ≤ x then 100 else if 5 ≤ x then 75 else if 1 ≤ x then 50 else 25 := by
  by_cases h1 : (1 : ℚ) ≤ x <;> by_cases h5 : (5 : ℚ) ≤ x <;> by_cases h10 : (10 : ℚ) ≤ x <;>
    simp [core_usage_score, core_labels, npDigitize, List.filter, h0, h1, h5, h10] <;> linarith

/-- C4, counterexample: an account with 0 core actions scores 25, not the 0
the claim's banding asserts (`np.digitize` counts the edge `0 ≤ 0`). -/
theorem claim_C4_counterexample :
    core_usage_score 0 = 25 ∧ (25 : ℚ) ≠ 0 := by
  constructor
  · norm_num [core_usage_score, core_labels, npDigitize, List.filter]
  · norm_num

/-- C4 (amended): the core-usage sub-score bands a count of `n` core actions
as 0 actions → 25, 1–4 → 50, 5–9 → 75, and 10 or more → 100. -/
theorem claim_C4 : ∀ n : ℕ, core_usage_score n =
    if 10 ≤ n then 100 else if 5 ≤ n then 75 else if 1 ≤ n then 50 else 25 := by
  intro n
  rw [core_usage_score_cases n (by positivity)]
  have e10 : ((10 : ℚ) ≤ (n : ℚ)) ↔ 10 ≤ n := by exact_mod_cast Iff.rfl
  have e5 : ((5 : ℚ) ≤ (n : ℚ)) ↔ 5 ≤ n := by exact_mod_cast Iff.rfl
  have e1 : ((1 : ℚ) ≤ (n : ℚ)) ↔ 1 ≤ n := by exact_mod_cast Iff.rfl
  simp [e10, e5, e1]

/-- C5: the renewal-risk flag is set iff `days_to_renewal ≤ 90` and the
health score is `< 60`; it is set at exactly 90 days with a score below 60,
and never set at a score of exactly 60. -/
theorem claim_C5 :
    (∀ d s : ℚ, at_renewal_risk d s = true ↔ d ≤ 90 ∧ s < 60) ∧
    at_renewal_risk 90 59 = true ∧
    (∀ d : ℚ, at_renewal_risk d 60 = false) := by
  refine ⟨?_, ?_, ?_⟩
  · intro d s
    simp [at_renewal_risk]
  · norm_num [at_renewal_risk]
  · intro d
    simp [at_renewal_risk]

/-- C5 witness: the iff applied at the concrete boundary input (90 days, score 59). -/
theorem claim_C5_witness : at_renewal_risk 90 59 = true :=
  (claim_C5.1 90 59).mpr ⟨by norm_num, by norm_num⟩

end CXDash

namespace CXDash

/-! ## Claim C6: CacheManager (cache_manager.py)

The deployment modelled is the memory-only configuration (`redis_client is
None`, the default without Upstash credentials), with `to_memory=True`.  The
wall clock (`datetime.now()`) is passed explicitly.  `memory_cache` is the
dict `{cache_key: (value, expiry)}`; `_set_memory` stores
`expiry = now + timedelta(seconds=ttl)`. -/

structure CacheState (α : Type) where
  mem : String → Option (α × ℚ)
  cache_hits : ℕ
  cache_misses : ℕ

def CACHE_VERSION : String := "v1"

/-- `_make_key`: the versioned cache key `f"{CACHE_VERSION}:{namespace}:{key}"`. -/
def make_key (ns key : String) : String :=
  CACHE_VERSION ++ ":" ++ ns ++ ":" ++ key

/-- `_set_memory`: store `(value, now + ttl)` under `cache_key`. -/
def set_memory {α : Type} (st : CacheState α) (cache_key : String) (value : α)
    (now ttl : ℚ) : CacheState α :=
  { st with mem := fun k => if k = cache_key then some (value, now + ttl) else st.mem k }

/-- `set` with `to_memory=True` and no Redis client. -/
def cache_set {α : Type} (st : CacheState α) (ns key : String) (value : α)
    (now ttl : ℚ) : CacheState α :=
  set_memory st (make_key ns key) value now ttl

/-- `get`: memory hit before expiry returns the value and counts a hit; an
expired entry is deleted and (with no Redis tier) the call counts a miss. -/
def cache_get {α : Type} (st : CacheState α) (ns key : String) (now : ℚ) :
    Option α × CacheState α :=
  match st.mem (make_key ns key) with
  | some (value, expiry) =>
      if now < expiry then
        (some value, { st with cache_hits := st.cache_hits + 1 })
      else
        (none, { st with
                  mem := fun k => if k = make_key ns key then none else st.mem k,
                  cache_misses := st.cache_misses + 1 })
  | none => (none, { st with cache_misses := st.cache_misses + 1 })

def empty_cache (α : Type) : CacheState α :=
  ⟨fun _ => none, 0, 0⟩

/-- C6: a `set` followed by a `get` of the same namespace and key returns the
stored value as long as the TTL has not elapsed, returns not-found once it
has, and in general a `get` only ever returns a value whose stored expiry is
still in the future. -/
theorem claim_C6 :
    (∀ (α : Type) (st : CacheState α) (ns key : String) (v : α) (now ttl t : ℚ),
      0 < ttl →
      (t < now + ttl → (cache_get (cache_set st ns key v now ttl) ns key t).1 = some v) ∧
      (now + ttl ≤ t → (cache_get (cache_set st ns key v now ttl) ns key t).1 = none)) ∧
    (∀ (α : Type) (st : CacheState α) (ns key : String) (now : ℚ) (v : α),
      (cache_get st ns key now).1 = some v →
      ∃ e : ℚ, st.mem (make_key ns key) = some (v, e) ∧ now < e) := by
  constructor
  · intro α st ns key v now ttl t _httl
    have hm : (cache_set st ns key v now ttl).mem (make_key ns key) = some (v, now + ttl) := by
      simp [cache_set, set_memory]
    constructor <;> intro h
    · simp [cache_get, hm, h]
    · simp [cache_get, hm, not_lt.mpr h]
  · intro α st ns key now v hget
    rcases hmem : st.mem (make_key ns key) with _ | ⟨w, e⟩
    · simp [cache_get, hmem] at hget
    · by_cases hlt : now < e
      · simp [cache_get, hmem, hlt] at hget
        exact ⟨e, by rw [hget], hlt⟩
      · simp [cache_get, hmem, hlt] at hget

/-- C6 witness: a concrete round trip in the `summary` namespace with
`ttl = 10`, read back at `t = 3` (hit) and at `t = 10` (expired). -/
theorem claim_C6_witness :
    0 < (10 : ℚ) ∧
    (cache_get (cache_set (empty_cache ℕ) "summary" "stats" 7 0 10) "summary" "stats" 3).1
      = some 7 ∧
    (cache_get (cache_set (empty_cache ℕ) "summary" "stats" 7 0 10) "summary" "stats" 10).1
      = none :=
  ⟨by norm_num,
   (claim_C6.1 ℕ (empty_cache ℕ) "summary" "stats" 7 0 10 3 (by norm_num)).1 (by norm_num),
   (claim_C6.1 ℕ (empty_cache ℕ) "summary" "stats" 7 0 10 10 (by norm_num)).2 (by norm_num)⟩

/-! ## Claim C10: rule-based churn tiers (churn_model_simple.py)

`np.clip(risk_score, 0, 1)` then
`pd.cut(p, bins=[0, 0.3, 0.6, 1.0], labels=['Low','Medium','High'])`:
`pd.cut` with default `right=True` and no `include_lowest` buckets into the
left-open intervals `(0, 0.3]`, `(0.3, 0.6]`, `(0.6, 1.0]` and yields NaN
(modelled `none`) outside them. -/

def churn_probability (risk_score : ℚ) : ℚ :=
  npClip 0 1 risk_score

def churn_risk_tier (p : ℚ) : Option String :=
  if 0 < p ∧ p ≤ 0.3 then some "Low"
  else if 0.3 < p ∧ p ≤ 0.6 then some "Medium"
  else if 0.6 < p ∧ p ≤ 1 then some "High"
  else none

/-- C10: a churn probability of exactly 0 receives no risk tier (`none`),
not the Low tier, and the Low tier is exactly the left-open interval
`(0, 0.3]`. -/
theorem claim_C10 :
    churn_risk_tier (churn_probability 0) = none ∧
    (∀ p : ℚ, churn_risk_tier p = some "Low" ↔ 0 < p ∧ p ≤ 0.3) := by
  constructor
  · norm_num [churn_probability, npClip, churn_risk_tier]
  · intro p
    unfold churn_risk_tier
    split_ifs with h1 h2 h3 <;> simp_all

/-- C10 witness: the Low-tier characterization applied at `p = 1/4`. -/
theorem claim_C10_witness : churn_risk_tier (1 / 4) = some "Low" :=
  (claim_C10.2 (1 / 4)).mpr ⟨by norm_num, by norm_num⟩

end CXDash

namespace CXDash

/-! ## Claims C7–C8: DataLoader (load_data.py)

Configuration modelled: the serverless deployment the module targets —
`VERCEL` set (so the Parquet disk cache is disabled) and no Upstash
credentials (so `redis_client is None` and the cache manager holds only the
memory tier).  Consequences taken directly from the source:
* `set_dataframe(..., to_memory=False)` writes nothing (raw users snapshot,
  tier-2 cohort/events writes);
* every cache probe is a memory lookup, modelled by one `Option` field per
  versioned key the loader touches.
`progress_trace` records every assignment to `loading_progress`, in order,
so temporal claims about the exposed percentage can be stated. -/

structure LoaderCache (α : Type) where
  raw_users : Option α   -- key v1:raw:users
  master : Option α      -- key v1:master:data
  cohort : Option α      -- key v1:cohort:data
  events : Option α      -- key v1:events:data
  churn : Option α       -- key v1:churn:predictions
  summary : Option α     -- key v1:summary:stats

structure LoaderState (α : Type) where
  cache : LoaderCache α
  master_df : Option α
  churn_predictions : Option α
  cohort_retention : Option α
  events_df : Option α
  users_df : Option α
  loaded : Bool
  tier0_loaded : Bool
  tier1_loaded : Bool
  tier2_loaded : Bool
  loading_stage : String
  loading_progress : ℕ
  progress_trace : List ℕ

def set_progress {α : Type} (st : LoaderState α) (p : ℕ) : LoaderState α :=
  { st with loading_progress := p, progress_trace := st.progress_trace ++ [p] }

/-- `load_tier0_summary` (lines 120–144).  When `tier0_loaded` is already
set the source delegates to `get_summary_stats`, whose loaded path is the
same summary-cache read with no progress writes. -/
def load_tier0_summary {α : Type} (st : LoaderState α) : Option α × LoaderState α :=
  if st.tier0_loaded then
    (st.cache.summary, st)
  else
    let st := set_progress { st with loading_stage := "Loading summary..." } 10
    match st.cache.summary with
    | some s => (some s, set_progress { st with tier0_loaded := true } 33)
    | none => (none, st)

/-- `load_tier1_users` (lines 146–183); the disk-cache branch is disabled in
the modelled deployment. -/
def load_tier1_users {α : Type} (st : LoaderState α) : Option α × LoaderState α :=
  if st.tier1_loaded && st.master_df.isSome then
    (st.master_df, st)
  else
    let st := set_progress { st with loading_stage := "Loading users..." } 20
    match st.cache.master with
    | some m =>
        (some m, set_progress { st with master_df := some m, tier1_loaded := true } 66)
    | none => (none, st)

/-- `load_tier2_analytics` (lines 185–230); disk-cache branch disabled. -/
def load_tier2_analytics {α : Type} (st : LoaderState α) :
    (Option α × Option α) × LoaderState α :=
  if st.tier2_loaded then
    ((st.cohort_retention, st.events_df), st)
  else
    let st := set_progress { st with loading_stage := "Loading analytics..." } 70
    match st.cache.cohort, st.cache.events with
    | some c, some e =>
        ((some c, some e),
         set_progress { st with cohort_retention := some c, events_df := some e,
                                tier2_loaded := true } 100)
    | _, _ => ((none, none), st)

/-- The compute stages of the full pipeline that can raise, in source order:
`DataConnector` loading, `build_master_table`, `calculate_cohort_retention`,
`build_churn_predictions`, `_compute_summary_stats`. -/
inductive FailStage where
  | loadRaw
  | buildMaster
  | cohortStage
  | churnStage
  | summaryStage
  deriving DecidableEq

/-- The environment of one full-pipeline run: the artifacts the data source
and compute engine would produce (opaque payloads here — the engine itself
is embedded separately above), and the first stage to raise, if any. -/
structure PipelineEnv (α : Type) where
  fail : Option FailStage
  err_msg : String
  users : α
  events : α
  master : α
  cohort_data : α
  churn_preds : α
  merged_master : α
  summary_data : α

/-- The `except` handler of `load_all_data` (lines 384–390):
`loading_stage = f"Error: {e}"`, `loading_progress = 0`, return `False`. -/
def load_failed {α : Type} (env : PipelineEnv α) (st : LoaderState α) :
    Bool × LoaderState α :=
  (false, set_progress { st with loading_stage := "Error: " ++ env.err_msg } 0)

/-- The full-recompute path of `load_all_data` (lines 281–390).  Cache
writes with `to_memory=False` (raw users, cohort, events) do not touch the
memory tier and are therefore no-ops here. -/
def run_full_pipeline {α : Type} (env : PipelineEnv α) (st : LoaderState α) :
    Bool × LoaderState α :=
  let st := set_progress { st with loading_stage := "Initializing..." } 0
  let st := set_progress { st with loading_stage := "Loading data files..." } 10
  if env.fail = some FailStage.loadRaw then load_failed env st else
  let st := { st with users_df := some env.users, events_df := some env.events }
  let st := set_progress { st with loading_stage := "Processing user metrics..." } 30
  if env.fail = some FailStage.buildMaster then load_failed env st else
  let st := { st with master_df := some env.master }
  let st := set_progress { st with loading_stage := "Calculating cohort retention..." } 60
  if env.fail = some FailStage.cohortStage then load_failed env st else
  let st := { st with cohort_retention := some env.cohort_data }
  let st := set_progress { st with loading_stage := "Building churn predictions..." } 75
  if env.fail = some FailStage.churnStage then load_failed env st else
  let st := { st with churn_predictions := some env.churn_preds,
                      master_df := some env.merged_master }
  let st := set_progress { st with loading_stage := "Caching data..." } 90
  let st := { st with cache := { st.cache with master := some env.merged_master } }
  let st := { st with cache := { st.cache with churn := some env.churn_preds } }
  if env.fail = some FailStage.summaryStage then load_failed env st else
  let st := { st with cache := { st.cache with summary := some env.summary_data } }
  let st := { st with tier0_loaded := true, tier1_loaded := true, tier2_loaded := true,
                      loaded := true, loading_stage := "Complete!" }
  (true, set_progress st 100)

/-- `load_all_data` (lines 232–390): early return when loaded, tiered cache
attempt, fall back to the full pipeline. -/
def load_all_data {α : Type} (env : PipelineEnv α) (force_recompute : Bool)
    (st : LoaderState α) : Bool × LoaderState α :=
  if st.loaded && !force_recompute then (true, st) else
  if !force_recompute then
    match load_tier1_users st with
    | (some _, st1) =>
        match load_tier2_analytics st1 with
        | ((some _, some _), st2) =>
            let (_, st3) := load_tier0_summary st2
            let st4 := { st3 with loaded := true, tier0_loaded := true,
                                  tier1_loaded := true, tier2_loaded := true }
            let st5 := set_progress st4 100
            let st6 := { st5 with loading_stage := "Complete (from cache)!" }
            let st7 :=
              if st6.cache.raw_users.isSome && st6.events_df.isSome then
                { st6 with users_df := st6.cache.raw_users }
              else st6
            (true, st7)
        | ((_, _), st2) =>
            let (_, st3) := load_tier0_summary st2
            run_full_pipeline env st3
    | (none, st1) => run_full_pipeline env st1
  else run_full_pipeline env st

/-- A fresh loader on a completely cold cache. -/
def cold_loader : LoaderState ℕ :=
  ⟨⟨none, none, none, none, none, none⟩, none, none, none, none, none,
   false, false, false, false, "", 0, []⟩

/-- A failure-free environment with distinct payload tokens. -/
def env_ok : PipelineEnv ℕ :=
  ⟨none, "", 1, 2, 3, 4, 5, 6, 7⟩

/-- An environment whose `_compute_summary_stats` stage raises. -/
def env_summary_fail : PipelineEnv ℕ :=
  ⟨some FailStage.summaryStage, "boom", 1, 2, 3, 4, 5, 6, 7⟩

/-- A loader whose cache already holds entries from an earlier successful
run (master 101, churn 105, summary 109), before a forced reload. -/
def stale_loader : LoaderState ℕ :=
  ⟨⟨none, some 101, none, none, some 105, some 109⟩, none, none, none, none, none,
   false, false, false, false, "", 0, []⟩

/-- C7, counterexample: a forced reload whose summary stage raises reports
the failure (returns false, stage `"Error: boom"`), yet the pre-existing
master cache entry 101 has already been overwritten with the new value 6 —
the failed attempt does partially overwrite the cache. -/
theorem claim_C7_counterexample :
    (load_all_data env_summary_fail true stale_loader).1 = false ∧
    (load_all_data env_summary_fail true stale_loader).2.loading_stage = "Error: boom" ∧
    (load_all_data env_summary_fail true stale_loader).2.cache.master = some 6 ∧
    stale_loader.cache.master = some 101 ∧
    some 6 ≠ some 101 := by
  refine ⟨rfl, rfl, rfl, rfl, by decide⟩

/-- C7 (amended): whichever stage raises, the load reports failure with the
error as the stage cause (`"Error: " ++ msg`, progress 0, result false), and
cache entries not yet written are untouched — but entries written before the
failing stage are already overwritten: on a summary-stage failure the master
and churn cache entries hold the new values.  The raw/cohort/events entries
are never written in the memory-only deployment (`to_memory=False`). -/
theorem claim_C7 : ∀ (α : Type) (env : PipelineEnv α) (st : LoaderState α) (fs : FailStage),
    env.fail = some fs →
    (load_all_data env true st).1 = false ∧
    (load_all_data env true st).2.loading_stage = "Error: " ++ env.err_msg ∧
    (load_all_data env true st).2.loading_progress = 0 ∧
    (load_all_data env true st).2.cache.summary = st.cache.summary ∧
    (load_all_data env true st).2.cache.raw_users = st.cache.raw_users ∧
    (load_all_data env true st).2.cache.cohort = st.cache.cohort ∧
    (load_all_data env true st).2.cache.events = st.cache.events ∧
    (load_all_data env true st).2.cache.master
      = (if fs = FailStage.summaryStage then some env.merged_master else st.cache.master) ∧
    (load_all_data env true st).2.cache.churn
      = (if fs = FailStage.summaryStage then some env.churn_preds else st.cache.churn) := by
  intro α env st fs h
  cases fs <;>
    simp [load_all_data, run_full_pipeline, load_failed, set_progress, h]

/-- C7 witness: the amended theorem at the concrete summary-stage failure. -/
theorem claim_C7_witness :
    (load_all_data env_summary_fail true stale_loader).1 = false ∧
    (load_all_data env_summary_fail true stale_loader).2.loading_stage
      = "Error: " ++ env_summary_fail.err_msg ∧
    (load_all_data env_summary_fail true stale_loader).2.loading_progress = 0 ∧
    (load_all_data env_summary_fail true stale_loader).2.cache.summary
      = stale_loader.cache.summary ∧
    (load_all_data env_summary_fail true stale_loader).2.cache.raw_users
      = stale_loader.cache.raw_users ∧
    (load_all_data env_summary_fail true stale_loader).2.cache.cohort
      = stale_loader.cache.cohort ∧
    (load_all_data env_summary_fail true stale_loader).2.cache.events
      = stale_loader.cache.events ∧
    (load_all_data env_summary_fail true stale_loader).2.cache.master
      = (if FailStage.summaryStage = FailStage.summaryStage
         then some env_summary_fail.merged_master else stale_loader.cache.master) ∧
    (load_all_data env_summary_fail true stale_loader).2.cache.churn
      = (if FailStage.summaryStage = FailStage.summaryStage
         then some env_summary_fail.churn_preds else stale_loader.cache.churn) :=
  claim_C7 ℕ env_summary_fail stale_loader FailStage.summaryStage rfl

/-- C8, counterexample: a cold-cache call (no failure, no force) records the
progress sequence 20, 0, 10, 30, 60, 75, 90, 100 — the tier-1 probe raises
progress to 20 before the recompute path resets it to 0, so the exposed
percentage is not monotonically non-decreasing over the call. -/
theorem claim_C8_counterexample :
    (load_all_data env_ok false cold_loader).2.progress_trace
      = [20, 0, 10, 30, 60, 75, 90, 100] ∧
    ¬ List.Chain' (fun a b : ℕ => a ≤ b)
        ((load_all_data env_ok false cold_loader).2.progress_trace) := by
  refine ⟨rfl, ?_⟩
  rw [show (load_all_data env_ok false cold_loader).2.progress_trace
        = [20, 0, 10, 30, 60, 75, 90, 100] from rfl]
  rw [List.chain'_cons]
  rintro ⟨h1, -⟩
  norm_num at h1

/-- C8 (amended): within the full-recompute phase the progress percentage is
monotone — a failure-free `run_full_pipeline` appends exactly the
non-decreasing sequence 0, 10, 30, 60, 75, 90, 100 — but monotonicity does
not extend across the cache probes of `load_all_data` that precede it. -/
theorem claim_C8 : ∀ (α : Type) (env : PipelineEnv α) (st : LoaderState α),
    env.fail = none →
    (run_full_pipeline env st).2.progress_trace
      = st.progress_trace ++ [0, 10, 30, 60, 75, 90, 100] ∧
    List.Chain' (fun a b : ℕ => a ≤ b) [0, 10, 30, 60, 75, 90, 100] := by
  intro α env st h
  constructor
  · simp [run_full_pipeline, set_progress, h]
  · simp [List.chain'_cons, List.chain'_singleton]

/-- C8 witness: the amended theorem at the failure-free environment and the
cold loader. -/
theorem claim_C8_witness :
    (run_full_pipeline env_ok cold_loader).2.progress_trace
      = cold_loader.progress_trace ++ [0, 10, 30, 60, 75, 90, 100] ∧
    List.Chain' (fun a b : ℕ => a ≤ b) [0, 10, 30, 60, 75, 90, 100] :=
  claim_C8 ℕ env_ok cold_loader rfl

/-! ## Claim C9: concurrent callers within one process

`load_data.py` takes no lock anywhere: `get_data_loader` (lines 476–481) is
a plain lazily-initialized module global shared by all callers in the
process, and `load_all_data` guards recomputation only by reading the plain
attribute `self.loaded` (line 244) that the pipeline sets at its end
(line 370).  We model each caller's pass through `load_all_data` as three
atomic steps on the shared singleton — read `self.loaded`; probe the cache
tiers; run the full pipeline (incrementing a computation counter, setting
`loaded` and writing the master entry to the memory tier; the cohort/events
entries are written with `to_memory=False` and so stay cold) — and a
scheduler as the list of which caller moves next. -/

inductive CallerPC where
  | checkLoaded
  | probeCache
  | runCompute
  | done
  deriving DecidableEq

structure SharedLoader where
  loaded : Bool
  cache_master : Bool
  cache_cohort : Bool
  cache_events : Bool
  compute_count : ℕ

def caller_step (pc : CallerPC) (sh : SharedLoader) : CallerPC × SharedLoader :=
  match pc with
  | CallerPC.checkLoaded =>
      if sh.loaded then (CallerPC.done, sh) else (CallerPC.probeCache, sh)
  | CallerPC.probeCache =>
      if sh.cache_master && sh.cache_cohort && sh.cache_events then
        (CallerPC.done, { sh with loaded := true })
      else
        (CallerPC.runCompute, sh)
  | CallerPC.runCompute =>
      (CallerPC.done,
       { sh with loaded := true, cache_master := true,
                 compute_count := sh.compute_count + 1 })
  | CallerPC.done => (CallerPC.done, sh)

structure ConcState where
  shared : SharedLoader
  pc0 : CallerPC
  pc1 : CallerPC

def sched_step (c : ConcState) (who : Bool) : ConcState :=
  if who then
    let (pc, sh) := caller_step c.pc1 c.shared
    { c with pc1 := pc, shared := sh }
  else
    let (pc, sh) := caller_step c.pc0 c.shared
    { c with pc0 := pc, shared := sh }

def run_sched (c : ConcState) (s : List Bool) : ConcState :=
  s.foldl sched_step c

/-- Two callers entering `load_all_data` on a cold cache. -/
def cold_start : ConcState :=
  ⟨⟨false, false, false, false, 0⟩, CallerPC.checkLoaded, CallerPC.checkLoaded⟩

/-- C9, counterexample: with no mutex or single-flight future in the source,
the interleaving where both callers read `self.loaded` before either
computes ends with both having run the full pipeline — two independent
recomputes, not the exactly-one the claim asserts. -/
theorem claim_C9_counterexample :
    (run_sched cold_start [false, true, false, true, false, true]).shared.compute_count = 2 ∧
    (run_sched cold_start [false, true, false, true, false, true]).pc0 = CallerPC.done ∧
    (run_sched cold_start [false, true, false, true, false, true]).pc1 = CallerPC.done ∧
    (2 : ℕ) ≠ 1 := by
  refine ⟨rfl, rfl, rfl, by decide⟩

/-- C9 (amended): duplicate work is avoided only when one caller's
`self.loaded` check happens after the other caller finished — the sequential
schedule performs one computation — while a cold-cache interleaving of the
two unguarded callers performs two independent full recomputes. -/
theorem claim_C9 :
    (run_sched cold_start [false, false, false, true]).shared.compute_count = 1 ∧
    (run_sched cold_start [false, false, false, true]).pc0 = CallerPC.done ∧
    (run_sched cold_start [false, false, false, true]).pc1 = CallerPC.done ∧
    (run_sched cold_start [false, true, false, true, false, true]).shared.compute_count = 2 := by
  refine ⟨rfl, rfl, rfl, rfl⟩

end CXDash
